import Mathlib

/-!
# Verification of the Dynamics-Theme automatic theme scheduler

Shallow embedding of `src/main.py` (Dynamics Theme, an automatic Windows
light/dark theme switcher driven by sunrise/sunset times), together with
proofs checking the repository's specification against the code.

Conventions of the embedding:
* Python strings are Lean `String`s; Python's `<` on strings (lexicographic
  comparison by Unicode code point) is embedded as the executable `pyLt`.
* The external collaborators (registry access, network, PIL, pystray) are
  modelled by explicit inputs: the sequence of `automatic_data()` results,
  the sequence of `get_local_time()` readings, and boolean flags saying
  which external calls raise an exception.
* The two waits (`time.sleep(backoff)` and `time.sleep(60)`) appear in the
  traces as the durations of *completed* sleeps: `time.sleep` does not
  consult `stop_event`, so a sleep that starts always runs to completion.
* Threading state for `select_theme` / `start_automatic` is modelled as an
  explicit interleaving semantics (`ModeSys`), in which every run-loop
  check reads the *current* process-global `stop_event`, exactly as the
  Python global name lookup does.
-/

/-- Lexicographic comparison of char lists by code point: the semantics of
Python's `<` on `str` values (first differing character decides; a strict
prefix is smaller). -/
def charsLt : List Char → List Char → Bool
  | _, [] => false
  | [], _ :: _ => true
  | a :: as, b :: bs => if a < b then true else if b < a then false else charsLt as bs

/-- Python's `s < t` for strings, as used by `automatic_theme` (line 298). -/
def pyLt (s t : String) : Bool := charsLt s.data t.data

/-- Line 298 of `automatic_theme`:
`desired_theme = "light" if sunrise < local_time < sunset else "dark"`.
Python's chained comparison is the conjunction of the two strict
comparisons. -/
def desired_theme (sunrise sunset now : String) : String :=
  if pyLt sunrise now && pyLt now sunset then "light" else "dark"

/-- Lines 300-303 of `automatic_theme`: one polling-tick update of
`current_applied_theme`.  `applied` is `current_applied_theme` (Python
`None` is `none`), `desired` is `desired_theme`, and `applyOk` is the
return value `set_windows_theme` would report if called.  Returns the new
`current_applied_theme` and the number of `set_windows_theme` calls made
(0 or 1). -/
def tick (applyOk : Bool) (applied : Option String) (desired : String) :
    Option String × Nat :=
  if some desired ≠ applied then
    (if applyOk then some desired else applied, 1)
  else (applied, 0)

/-- Total number of `set_windows_theme` calls made by two consecutive
polling ticks with an unchanged desired theme (`ok1`, `ok2` are the
outcomes `set_windows_theme` would report on the first and second tick). -/
def twoTickCalls (ok1 ok2 : Bool) (applied : Option String) (desired : String) : Nat :=
  (tick ok1 applied desired).2 + (tick ok2 (tick ok1 applied desired).1 desired).2

/-- Whether a check of `stop_event.is_set()` after `i` completed sleeps of
the surrounding loop observes the signal, when the signal is raised during
sleep number `k` (0-indexed); `none` means the signal is never raised.
The check at the head of iteration `i` precedes sleep `i`, so it observes
the signal iff `k < i`. -/
def stopObserved : Option Nat → Nat → Bool
  | none, _ => false
  | some k, i => decide (k < i)

/-- Observable trace of the steady-state polling loop (phase 2 of
`automatic_theme`, lines 294-305): the desired theme computed at each
executed tick, the arguments of the `set_windows_theme` calls made, and
the durations of the sleeps that ran to completion. -/
structure P2Trace where
  desireds : List String
  calls : List String
  sleeps : List Nat
deriving DecidableEq

/-- Lines 294-305 of `automatic_theme`: the polling loop.  `cancel` says
during which sleep (if any) `stop_event.set()` happens, `applyOk i` is the
result `set_windows_theme` reports at tick `i`, `times` is the sequence of
`get_local_time()` readings (the model's fuel), `i` counts completed
sleeps and `applied` is `current_applied_theme`.  Each iteration checks
`stop_event.is_set()` at the loop head, computes the desired theme, calls
`set_windows_theme` when it differs from the applied state, then runs
`time.sleep(60)` to completion (the sleep itself never observes the
signal). -/
def phase2Go (cancel : Option Nat) (applyOk : Nat → Bool) (sunrise sunset : String) :
    Nat → Option String → List String → P2Trace
  | _, _, [] => ⟨[], [], []⟩
  | i, applied, t :: rest =>
    if stopObserved cancel i then ⟨[], [], []⟩
    else
      let d := desired_theme sunrise sunset t
      let r := tick (applyOk i) applied d
      let tr := phase2Go cancel applyOk sunrise sunset (i + 1) r.1 rest
      ⟨d :: tr.desireds, (if r.2 = 1 then [d] else []) ++ tr.calls, 60 :: tr.sleeps⟩

/-- Lines 277-289 of `automatic_theme`: the schedule-resolution loop with
exponential backoff.  The list holds the successive results of
`automatic_data()` (a resolved `(sunrise, sunset)` pair or `none` on
failure); the head is the attempt the loop condition currently inspects.
`b` is `backoff`, `i` counts completed backoff sleeps, and `cancel` is as
in `stopObserved`.  On a failed attempt the loop checks the signal, runs
`time.sleep(backoff)` to completion, doubles the backoff up to the
600-second ceiling and consumes the next attempt.  Returns the completed
sleep durations and the resolved schedule (`none` if cancelled or if the
modelled attempts ran out). -/
def phase1Go (cancel : Option Nat) :
    Nat → Nat → List (Option (String × String)) → List Nat × Option (String × String)
  | _, _, [] => ([], none)
  | _, _, some s :: _ => ([], some s)
  | b, i, none :: rest =>
    if stopObserved cancel i then ([], none)
    else
      let p := phase1Go cancel (min (b * 2) 600) (i + 1) rest
      (b :: p.1, p.2)

/-- The backoff value in force before sleep number `k`, starting from `b`:
`backoff = min(backoff * 2, 600)` after each failed attempt (line 284). -/
def waitSeqFrom : Nat → Nat → Nat
  | b, 0 => b
  | b, k + 1 => waitSeqFrom (min (b * 2) 600) k

/-- The duration of the `k`-th backoff sleep of `automatic_theme`
(initial backoff 30 seconds, line 277). -/
def waitSeq : Nat → Nat := waitSeqFrom 30

/-- Which external calls inside `set_windows_theme` raise an exception,
and whether the tray `icon` global is set (line 113). -/
structure ThemeEnv where
  openKeyFails : Bool
  setAppsFails : Bool
  setSystemFails : Bool
  iconPresent : Bool
  iconOpenFails : Bool
  broadcastFails : Bool
deriving DecidableEq

/-- Externally visible effects of one `set_windows_theme` call: the
registry values successfully written (name, dword value), whether the
tray icon image was replaced, and whether the `WM_SETTINGCHANGE`
broadcast (line 116) was issued. -/
structure ThemeEffects where
  writes : List (String × Nat)
  iconUpdated : Bool
  broadcast : Bool
deriving DecidableEq

/-- No effects yet. -/
def emptyEffects : ThemeEffects := ⟨[], false, false⟩

/-- The write path of `set_windows_theme` (lines 110-118) for a valid
theme: registry value `v`, then the icon update, then the broadcast;
`Except.error` models an exception escaping to the handler, carrying the
effects already performed. -/
def themeWritePath (env : ThemeEnv) (v : Nat) : ThemeEffects × Except Unit Bool :=
  if env.setAppsFails then (emptyEffects, Except.error ()) else
  if env.setSystemFails then (⟨[("AppsUseLightTheme", v)], false, false⟩, Except.error ()) else
  if env.iconPresent && env.iconOpenFails then
    (⟨[("AppsUseLightTheme", v), ("SystemUsesLightTheme", v)], false, false⟩, Except.error ())
  else if env.broadcastFails then
    (⟨[("AppsUseLightTheme", v), ("SystemUsesLightTheme", v)], env.iconPresent, false⟩,
      Except.error ())
  else
    (⟨[("AppsUseLightTheme", v), ("SystemUsesLightTheme", v)], env.iconPresent, true⟩,
      Except.ok true)

/-- The `try` block of `set_windows_theme` (lines 97-118): open the key,
dispatch on the theme string (lines 100-108; any string other than
`"light"` and `"dark"` returns `False` before any write), then the write
path. -/
def set_windows_theme_body (env : ThemeEnv) (theme : String) :
    ThemeEffects × Except Unit Bool :=
  if env.openKeyFails then (emptyEffects, Except.error ()) else
  if theme = "light" then themeWritePath env 1
  else if theme = "dark" then themeWritePath env 0
  else (emptyEffects, Except.ok false)

/-- `set_windows_theme` (lines 86-121): the `try` body with the
`except Exception` handler that converts any exception into a `False`
return (lines 119-121).  Result: the returned boolean and the effects
performed. -/
def set_windows_theme (env : ThemeEnv) (theme : String) : Bool × ThemeEffects :=
  match set_windows_theme_body env theme with
  | (eff, Except.ok b) => (b, eff)
  | (eff, Except.error _) => (false, eff)

/-- Outcome of process startup: whether `start_automatic()` was reached,
and which tray icon file was chosen. -/
structure StartupResult where
  automaticStarted : Bool
  iconPath : Option String
deriving DecidableEq

/-- `create_tray_icon` (lines 320-343), as a function of the
`get_current_theme()` reading: on `None` the function returns at line 326
without creating the icon or starting automatic mode; otherwise the icon
path is chosen by Python truthiness of the reading (line 328) and
`start_automatic()` is reached (line 342). -/
def create_tray_icon (currentTheme : Option Nat) : StartupResult :=
  match currentTheme with
  | none => ⟨false, none⟩
  | some v =>
    ⟨true, some (if v = 0 then "lib/icon_dark.png" else "lib/icon_light.png")⟩

/-- One spawned `automatic_theme` thread: whether it has observed the stop
signal and returned, and how many `set_windows_theme` calls it has made. -/
structure RunLoop where
  terminated : Bool
  calls : Nat
deriving DecidableEq

/-- Process state for the mode-switching protocol: the flags of all
`threading.Event` objects created so far, the index of the object the
process-global `stop_event` name currently refers to (line 82 /
line 270), and the spawned run-loop threads. -/
structure ModeSys where
  events : List Bool
  stopEventIdx : Nat
  threads : List RunLoop
deriving DecidableEq

/-- State after module load (line 82): one unset event, no threads. -/
def initSys : ModeSys := ⟨[false], 0, []⟩

/-- `stop_event.set()` (line 258): raises the flag of the event the
global currently refers to. -/
def stop_event_set (sys : ModeSys) : ModeSys :=
  { sys with events := sys.events.set sys.stopEventIdx true }

/-- `start_automatic` (lines 266-272): rebinds the global `stop_event` to
a fresh unset `threading.Event` and spawns a new `automatic_theme`
thread. -/
def start_automatic (sys : ModeSys) : ModeSys :=
  { events := sys.events ++ [false]
    stopEventIdx := sys.events.length
    threads := sys.threads ++ [⟨false, 0⟩] }

/-- `select_theme('auto')` (lines 252-260): `stop_event.set()`, then
`start_automatic()`. -/
def select_theme_auto (sys : ModeSys) : ModeSys :=
  start_automatic (stop_event_set sys)

/-- Interleaved events of the concurrent system: a `select_theme('auto')`
request from the tray menu, the startup `start_automatic()` call, or one
loop iteration of thread `i` (which reads the *current* global
`stop_event`, terminates if it is set, and otherwise performs a tick that
makes a `set_windows_theme` call). -/
inductive ModeAction where
  | selectAuto
  | startAuto
  | iter (i : Nat)
deriving DecidableEq

/-- Apply one interleaving step. -/
def applyAction : ModeAction → ModeSys → ModeSys
  | ModeAction.selectAuto, sys => select_theme_auto sys
  | ModeAction.startAuto, sys => start_automatic sys
  | ModeAction.iter i, sys =>
    match sys.threads.get? i with
    | none => sys
    | some t =>
      if t.terminated then sys
      else if sys.events.getD sys.stopEventIdx false then
        { sys with threads := sys.threads.set i { t with terminated := true } }
      else
        { sys with threads := sys.threads.set i { t with calls := t.calls + 1 } }

/-- Run an interleaving from the initial state. -/
def runActions (acts : List ModeAction) : ModeSys :=
  acts.foldl (fun s a => applyAction a s) initSys

/-- Number of spawned run-loops that have not observed cancellation. -/
def liveThreads (sys : ModeSys) : Nat :=
  (sys.threads.filter (fun t => !t.terminated)).length

/-- Two-digit zero-padded decimal rendering of `n`, as produced by
`strftime` field formatting (`%H`, `%M`, `%S`). -/
def two_pad (n : Nat) : List Char := [Nat.digitChar (n / 10), Nat.digitChar (n % 10)]

/-- The `'%H:%M:%S'` rendering used by both `get_local_time` (line 249)
and `sun_time_local` (line 220). -/
def timeString (h m s : Nat) : String :=
  ⟨two_pad h ++ ':' :: (two_pad m ++ ':' :: two_pad s)⟩

/-- A time of day in seconds since midnight: the chronological order on
well-formed times. -/
def toSec (h m s : Nat) : Nat := h * 3600 + m * 60 + s

/-- `charsLt` is irreflexive (no string is Python-less-than itself). -/
theorem charsLt_self (l : List Char) : charsLt l l = false := by
  induction l with
  | nil => rfl
  | cons a as ih => simp [charsLt, ih]

/-- `pyLt` is irreflexive. -/
theorem pyLt_self (s : String) : pyLt s s = false := charsLt_self s.data

/-- `charsLt` agrees with Mathlib's lexicographic strict order on
`List Char`. -/
theorem charsLt_iff_lex (l₁ l₂ : List Char) :
    charsLt l₁ l₂ = true ↔ List.Lex (· < ·) l₁ l₂ := by
  induction l₁ generalizing l₂ with
  | nil =>
    cases l₂ with
    | nil => simp [charsLt]
    | cons b bs => simpa [charsLt] using List.Lex.nil
  | cons a as ih =>
    cases l₂ with
    | nil => simp [charsLt]
    | cons b bs =>
      by_cases hab : a < b
      · simpa [charsLt, hab] using List.Lex.rel hab
      · by_cases hba : b < a
        · simp only [charsLt, if_neg hab, if_pos hba, Bool.false_eq_true, false_iff]
          intro h
          cases h with
          | cons h => exact absurd rfl (ne_of_gt hba)
          | rel h => exact absurd h hab
        · have hEq : a = b := le_antisymm (le_of_not_lt hba) (le_of_not_lt hab)
          subst hEq
          simp only [charsLt, if_neg hab]
          constructor
          · intro h; exact List.Lex.cons ((ih bs).mp h)
          · intro h
            cases h with
            | cons h => exact (ih bs).mpr h
            | rel h => exact absurd h hab

/-- `pyLt` agrees with Lean's lexicographic order on `String`. -/
theorem pyLt_iff_lt (s t : String) : pyLt s t = true ↔ s < t := by
  rw [String.lt_iff_toList_lt]
  exact charsLt_iff_lex s.data t.data

/-- Decimal digit characters compare like the digits they denote. -/
theorem digitChar_lt_iff :
    ∀ a, a < 10 → ∀ b, b < 10 → (Nat.digitChar a < Nat.digitChar b ↔ a < b) := by
  decide

/-- Decimal digit characters are equal only for equal digits. -/
theorem digitChar_eq_iff :
    ∀ a, a < 10 → ∀ b, b < 10 → (Nat.digitChar a = Nat.digitChar b ↔ a = b) := by
  decide

/-- Comparing two strings that both start with a two-digit zero-padded
number compares the numbers first and falls through to the rest on
equality. -/
theorem charsLt_two_pad (x y : Nat) (hx : x < 100) (hy : y < 100) (r r' : List Char) :
    charsLt (two_pad x ++ r) (two_pad y ++ r')
      = if x < y then true else if y < x then false else charsLt r r' := by
  have hx1 : x / 10 < 10 := by omega
  have hy1 : y / 10 < 10 := by omega
  have hx2 : x % 10 < 10 := by omega
  have hy2 : y % 10 < 10 := by omega
  show charsLt
      (Nat.digitChar (x / 10) :: Nat.digitChar (x % 10) :: r)
      (Nat.digitChar (y / 10) :: Nat.digitChar (y % 10) :: r') = _
  rcases Nat.lt_trichotomy (x / 10) (y / 10) with h1 | h1 | h1
  · have hc : Nat.digitChar (x / 10) < Nat.digitChar (y / 10) :=
      (digitChar_lt_iff _ hx1 _ hy1).mpr h1
    rw [show charsLt
        (Nat.digitChar (x / 10) :: Nat.digitChar (x % 10) :: r)
        (Nat.digitChar (y / 10) :: Nat.digitChar (y % 10) :: r') = true by
      simp [charsLt, hc]]
    rw [if_pos (by omega)]
  · have hc : Nat.digitChar (x / 10) = Nat.digitChar (y / 10) :=
      (digitChar_eq_iff _ hx1 _ hy1).mpr h1
    have hnlt : ¬ Nat.digitChar (x / 10) < Nat.digitChar (y / 10) := by
      rw [hc]; exact lt_irrefl _
    have hnlt2 : ¬ Nat.digitChar (y / 10) < Nat.digitChar (x / 10) := by
      rw [hc]; exact lt_irrefl _
    rcases Nat.lt_trichotomy (x % 10) (y % 10) with h2 | h2 | h2
    · have hc2 : Nat.digitChar (x % 10) < Nat.digitChar (y % 10) :=
        (digitChar_lt_iff _ hx2 _ hy2).mpr h2
      rw [show charsLt
          (Nat.digitChar (x / 10) :: Nat.digitChar (x % 10) :: r)
          (Nat.digitChar (y / 10) :: Nat.digitChar (y % 10) :: r') = true by
        simp [charsLt, hnlt, hnlt2, hc2]]
      rw [if_pos (by omega)]
    · have hxy : x = y := by omega
      subst hxy
      rw [if_neg (lt_irrefl x), if_neg (lt_irrefl x)]
      simp [charsLt]
    · have hc2 : Nat.digitChar (y % 10) < Nat.digitChar (x % 10) :=
        (digitChar_lt_iff _ hy2 _ hx2).mpr h2
      have hn2 : ¬ Nat.digitChar (x % 10) < Nat.digitChar (y % 10) :=
        fun hcon => absurd hc2 (asymm hcon)
      rw [show charsLt
          (Nat.digitChar (x / 10) :: Nat.digitChar (x % 10) :: r)
          (Nat.digitChar (y / 10) :: Nat.digitChar (y % 10) :: r') = false by
        simp [charsLt, hnlt, hnlt2, hn2, hc2]]
      rw [if_neg (show ¬ x < y by omega), if_pos (show y < x by omega)]
  · have hc : Nat.digitChar (y / 10) < Nat.digitChar (x / 10) :=
      (digitChar_lt_iff _ hy1 _ hx1).mpr h1
    have hn : ¬ Nat.digitChar (x / 10) < Nat.digitChar (y / 10) :=
      fun hcon => absurd hc (asymm hcon)
    rw [show charsLt
        (Nat.digitChar (x / 10) :: Nat.digitChar (x % 10) :: r)
        (Nat.digitChar (y / 10) :: Nat.digitChar (y % 10) :: r') = false by
      simp [charsLt, hn, hc]]
    rw [if_neg (show ¬ x < y by omega), if_pos (show y < x by omega)]

/-- A shared leading colon does not affect the comparison. -/
theorem charsLt_colon (r r' : List Char) : charsLt (':' :: r) (':' :: r') = charsLt r r' := by
  simp [charsLt]

/-- Python comparison of two rendered `'HH:MM:SS'` strings is the
field-by-field lexicographic comparison of the components. -/
theorem pyLt_timeString (h m s h2 m2 s2 : Nat)
    (hh : h < 100) (hm : m < 100) (hs : s < 100)
    (hh2 : h2 < 100) (hm2 : m2 < 100) (hs2 : s2 < 100) :
    pyLt (timeString h m s) (timeString h2 m2 s2)
      = if h < h2 then true else if h2 < h then false
        else if m < m2 then true else if m2 < m then false
        else if s < s2 then true else if s2 < s then false else false := by
  show charsLt (two_pad h ++ ':' :: (two_pad m ++ ':' :: two_pad s))
      (two_pad h2 ++ ':' :: (two_pad m2 ++ ':' :: two_pad s2)) = _
  rw [charsLt_two_pad h h2 hh hh2, charsLt_colon, charsLt_two_pad m m2 hm hm2,
    charsLt_colon,
    show two_pad s = two_pad s ++ [] from (List.append_nil _).symm,
    show two_pad s2 = two_pad s2 ++ [] from (List.append_nil _).symm,
    charsLt_two_pad s s2 hs hs2]
  rfl

/-- Unfolding the backoff sequence one step from the front. -/
theorem waitSeqFrom_succ_left (b k : Nat) :
    waitSeqFrom b (k + 1) = waitSeqFrom (min (b * 2) 600) k := rfl

/-- The backoff recurrence commutes to the tail: the next wait is the
doubled-and-capped previous wait. -/
theorem waitSeqFrom_succ (b k : Nat) :
    waitSeqFrom b (k + 1) = min (waitSeqFrom b k * 2) 600 := by
  induction k generalizing b with
  | zero => rfl
  | succ k ih =>
    rw [waitSeqFrom_succ_left, ih, waitSeqFrom_succ_left]

/-- Every backoff wait respects the 600-second ceiling, provided the
starting value does. -/
theorem waitSeqFrom_le (b k : Nat) (hb : b ≤ 600) : waitSeqFrom b k ≤ 600 := by
  induction k generalizing b with
  | zero => exact hb
  | succ k ih =>
    rw [waitSeqFrom_succ_left]
    exact ih _ (min_le_right _ _)

/-- With no cancellation, `n` failed attempts followed by a success
produce exactly the first `n` backoff waits and resolve the schedule. -/
theorem phase1Go_replicate (n : Nat) :
    ∀ (b i : Nat) (s : String × String),
      phase1Go none b i (List.replicate n none ++ [some s])
        = ((List.range n).map (waitSeqFrom b), some s) := by
  induction n with
  | zero => intro b i s; rfl
  | succ n ih =>
    intro b i s
    show phase1Go none b i (none :: (List.replicate n none ++ [some s])) = _
    rw [show phase1Go none b i (none :: (List.replicate n none ++ [some s]))
        = (b :: (phase1Go none (min (b * 2) 600) (i + 1)
            (List.replicate n none ++ [some s])).1,
           (phase1Go none (min (b * 2) 600) (i + 1)
            (List.replicate n none ++ [some s])).2) from rfl]
    rw [ih (min (b * 2) 600) (i + 1) s]
    rw [List.range_succ_eq_map, List.map_cons, List.map_map]
    rfl

/-- With no cancellation, the polling loop completes one 60-second sleep
per consumed clock reading. -/
theorem phase2Go_sleeps_none (ok : Nat → Bool) (sr ss : String) :
    ∀ (times : List String) (i : Nat) (applied : Option String),
      (phase2Go none ok sr ss i applied times).sleeps
        = List.replicate times.length 60 := by
  intro times
  induction times with
  | nil => intro i applied; rfl
  | cons t rest ih =>
    intro i applied
    show (phase2Go none ok sr ss i applied (t :: rest)).sleeps = _
    rw [show phase2Go none ok sr ss i applied (t :: rest)
        = ⟨desired_theme sr ss t ::
            (phase2Go none ok sr ss (i + 1)
              (tick (ok i) applied (desired_theme sr ss t)).1 rest).desireds,
           (if (tick (ok i) applied (desired_theme sr ss t)).2 = 1
              then [desired_theme sr ss t] else []) ++
            (phase2Go none ok sr ss (i + 1)
              (tick (ok i) applied (desired_theme sr ss t)).1 rest).calls,
           60 :: (phase2Go none ok sr ss (i + 1)
              (tick (ok i) applied (desired_theme sr ss t)).1 rest).sleeps⟩ from rfl]
    simp [ih, List.replicate_succ]

/-- A cancellation raised during sleep `r` makes the polling loop behave
exactly like the uncancelled loop restricted to the clock readings up to
and including tick `r`: the iteration in flight (tick, applier call and
full 60-second sleep) completes, and nothing runs after it. -/
theorem phase2Go_cancel (r : Nat) (ok : Nat → Bool) (sr ss : String) :
    ∀ (times : List String) (i : Nat) (applied : Option String),
      phase2Go (some r) ok sr ss i applied times
        = phase2Go none ok sr ss i applied (times.take (r + 1 - i)) := by
  intro times
  induction times with
  | nil => intro i applied; rw [List.take_nil]; rfl
  | cons t rest ih =>
    intro i applied
    by_cases hi : r < i
    · rw [show r + 1 - i = 0 by omega, List.take_zero]
      show (if stopObserved (some r) i then (⟨[], [], []⟩ : P2Trace) else _) = ⟨[], [], []⟩
      rw [if_pos (by simp [stopObserved, hi])]
    · rw [show r + 1 - i = (r - i) + 1 by omega, List.take_succ_cons]
      show (if stopObserved (some r) i then (⟨[], [], []⟩ : P2Trace) else _)
        = (if stopObserved none i then (⟨[], [], []⟩ : P2Trace) else _)
      rw [if_neg (by simp [stopObserved, hi]), if_neg (by simp [stopObserved])]
      have hrec := ih (i + 1) (tick (ok i) applied (desired_theme sr ss t)).1
      rw [show r + 1 - (i + 1) = r - i by omega] at hrec
      simp only [hrec]

/-- A cancellation raised during backoff sleep `r` truncates the list of
completed backoff waits to the first `r + 1 - i` of the uncancelled run:
the wait in flight still completes, later iterations do not run. -/
theorem phase1Go_cancel (r : Nat) :
    ∀ (l : List (Option (String × String))) (b i : Nat),
      (phase1Go (some r) b i l).1 = ((phase1Go none b i l).1).take (r + 1 - i) := by
  intro l
  induction l with
  | nil => intro b i; exact (List.take_nil).symm
  | cons hd rest ih =>
    intro b i
    cases hd with
    | some s => exact (List.take_nil).symm
    | none =>
      rw [show phase1Go (some r) b i (none :: rest)
          = if stopObserved (some r) i then ([], none)
            else (b :: (phase1Go (some r) (min (b * 2) 600) (i + 1) rest).1,
                  (phase1Go (some r) (min (b * 2) 600) (i + 1) rest).2) from rfl]
      rw [show phase1Go none b i (none :: rest)
          = if stopObserved none i then ([], none)
            else (b :: (phase1Go none (min (b * 2) 600) (i + 1) rest).1,
                  (phase1Go none (min (b * 2) 600) (i + 1) rest).2) from rfl]
      by_cases hi : r < i
      · rw [if_pos (show stopObserved (some r) i = true by simp [stopObserved, hi]),
          if_neg (show ¬ stopObserved none i = true by simp [stopObserved]),
          show r + 1 - i = 0 by omega, List.take_zero]
      · rw [if_neg (show ¬ stopObserved (some r) i = true by simp [stopObserved, hi]),
          if_neg (show ¬ stopObserved none i = true by simp [stopObserved]),
          show r + 1 - i = (r - i) + 1 by omega]
        show b :: (phase1Go (some r) (min (b * 2) 600) (i + 1) rest).1
          = (b :: (phase1Go none (min (b * 2) 600) (i + 1) rest).1).take (r - i + 1)
        rw [List.take_succ_cons, ih]
        rw [show r + 1 - (i + 1) = r - i by omega]

/-- Bounded index into a set list reads the written value. -/
theorem getD_set_true (l : List Bool) :
    ∀ i : Nat, i < l.length → (l.set i true).getD i false = true := by
  induction l with
  | nil => intro i hi; exact absurd hi (Nat.not_lt_zero i)
  | cons a as ih =>
    intro i hi
    cases i with
    | zero => rfl
    | succ j => exact ih j (Nat.lt_of_succ_lt_succ hi)

/-- Reading a singleton-extended list at the old length yields the new
element. -/
theorem getD_append_len (l : List Bool) (x : Bool) :
    (l ++ [x]).getD l.length false = x := by
  induction l with
  | nil => rfl
  | cons a as ih => exact ih

/-- C1: in the polling tick the desired theme is `"light"` exactly when
`sunrise < now < sunset` holds with strict string comparison on both
sides; at either boundary instant (`now = sunrise` or `now = sunset`) the
desired theme is `"dark"`. -/
theorem C1_desired_strict_boundaries (sunrise sunset t : String)
    (_hss : pyLt sunrise sunset = true) :
    (desired_theme sunrise sunset t = "light"
      ↔ (pyLt sunrise t = true ∧ pyLt t sunset = true))
    ∧ desired_theme sunrise sunset sunrise = "dark"
    ∧ desired_theme sunrise sunset sunset = "dark" := by
  refine ⟨⟨?_, ?_⟩, ?_, ?_⟩
  · intro hl
    have hcond : (pyLt sunrise t && pyLt t sunset) = true := by
      by_contra hc
      have hdk : desired_theme sunrise sunset t = "dark" := by
        unfold desired_theme; rw [if_neg hc]
      rw [hdk] at hl
      exact absurd hl (by decide)
    exact ⟨((Bool.and_eq_true _ _).mp hcond).1, ((Bool.and_eq_true _ _).mp hcond).2⟩
  · rintro ⟨h1, h2⟩
    unfold desired_theme
    rw [h1, h2]
    rfl
  · unfold desired_theme
    rw [pyLt_self]
    rfl
  · unfold desired_theme
    rw [pyLt_self, Bool.and_false]
    rfl

/-- C1 witness: a concrete schedule and midday clock reading. -/
theorem C1_witness :
    (desired_theme "06:30:00" "20:15:00" "12:00:00" = "light"
      ↔ (pyLt "06:30:00" "12:00:00" = true ∧ pyLt "12:00:00" "20:15:00" = true))
    ∧ desired_theme "06:30:00" "20:15:00" "06:30:00" = "dark"
    ∧ desired_theme "06:30:00" "20:15:00" "20:15:00" = "dark" :=
  C1_desired_strict_boundaries "06:30:00" "20:15:00" "12:00:00" (by decide)

/-- C2 counterexample: with the applied state already equal to the
(unchanged) desired theme, two consecutive polling ticks make zero
`set_windows_theme` calls, not exactly one as claimed. -/
theorem C2_counterexample : twoTickCalls true true (some "light") "light" = 0 := by
  decide

/-- C2 amended: two consecutive polling ticks with an unchanged desired
theme, the first apply (if any) succeeding, make exactly one
`set_windows_theme` call when the desired theme differs from the applied
state and zero calls when it already matches; the second tick never
calls. -/
theorem C2_amended (ok2 : Bool) (applied : Option String) (desired : String) :
    twoTickCalls true ok2 applied desired = (if applied = some desired then 0 else 1)
    ∧ (tick ok2 (tick true applied desired).1 desired).2 = 0 := by
  by_cases h : applied = some desired
  · simp [twoTickCalls, tick, h]
  · have h2 : some desired ≠ applied := fun hc => h hc.symm
    simp [twoTickCalls, tick, h, h2]

/-- C3: with no cancellation, `n` consecutive resolution failures followed
by a success sleep exactly the backoff waits `waitSeq 0, ..., waitSeq
(n-1)` and resolve the schedule (entering phase 2); the waits start at 30,
obey `next = min(previous * 2, 600)`, are non-decreasing and never exceed
600, with no bound on the number of retries; in particular two failures
then a success sleep 30 then 60 seconds. -/
theorem C3_backoff (n : Nat) (s : String × String) :
    phase1Go none 30 0 (List.replicate n none ++ [some s])
      = ((List.range n).map waitSeq, some s)
    ∧ waitSeq 0 = 30
    ∧ (∀ k, waitSeq (k + 1) = min (waitSeq k * 2) 600
        ∧ waitSeq k ≤ waitSeq (k + 1) ∧ waitSeq k ≤ 600)
    ∧ phase1Go none 30 0 [none, none, some s] = ([30, 60], some s) := by
  refine ⟨phase1Go_replicate n 30 0 s, rfl, ?_, ?_⟩
  · intro k
    have h600 : waitSeq k ≤ 600 := waitSeqFrom_le 30 k (by omega)
    have hrec : waitSeq (k + 1) = min (waitSeq k * 2) 600 := waitSeqFrom_succ 30 k
    refine ⟨hrec, ?_, h600⟩
    rw [hrec]
    exact le_min (by omega) h600
  · rw [show ([none, none, some s] : List (Option (String × String)))
        = List.replicate 2 none ++ [some s] from rfl]
    rw [phase1Go_replicate 2 30 0 s]
    rfl

/-- C4 counterexample: on the scenario schedule 06:30:00/20:15:00 and
clock sequence 06:29:59, 06:30:01, 20:14:59, 20:15:00, a fresh polling
phase (applied state starting at `none`) makes 3 `set_windows_theme`
calls, not 2: the very first tick already applies `"dark"` because the
applied state starts at "none yet". -/
theorem C4_scenario_counterexample :
    (phase2Go none (fun _ => true) "06:30:00" "20:15:00" 0 none
      ["06:29:59", "06:30:01", "20:14:59", "20:15:00"]).calls.length = 3 := by
  decide

/-- C4 amended: the scenario produces the desired-theme sequence Dark,
Light, Light, Dark and exactly 3 applier calls - on the first tick
(initial application of Dark from the "none yet" state) and on the
1st-to-2nd and 3rd-to-4th transitions - each tick completing its
60-second sleep. -/
theorem C4_scenario :
    phase2Go none (fun _ => true) "06:30:00" "20:15:00" 0 none
      ["06:29:59", "06:30:01", "20:14:59", "20:15:00"]
      = ⟨["dark", "light", "light", "dark"], ["dark", "light", "dark"],
         [60, 60, 60, 60]⟩ := by
  decide

/-- C5 counterexample: the signal is raised during the polling loop's
first 60-second sleep (with two clock readings available), yet the trace
records that sleep as completed in full - `time.sleep(60)` does not
observe `stop_event`, so the run-loop does not terminate without
completing the wait; it terminates only at the next loop-head check. -/
theorem C5_wait_counterexample :
    (phase2Go (some 0) (fun _ => true) "06:30:00" "20:15:00" 0 none
      ["12:00:00", "12:00:00"]).sleeps = [60] := by
  decide

/-- C5 amended: raising the signal during sleep `r` of the polling loop
leaves the run identical to the uncancelled run on the first `r + 1`
clock readings - the in-flight iteration, its applier call and its full
60-second sleep all complete, and no applier call happens afterwards; the
completed-sleep list has length exactly `r + 1`; likewise, a signal raised
during backoff sleep `r` of the resolution loop truncates the completed
backoff waits to the first `r + 1 - i`, never cutting a started wait
short (the resolution loop makes no applier calls at all). -/
theorem C5_cancel_completes_wait (r : Nat) (ok : Nat → Bool) (sr ss : String)
    (applied : Option String) (times : List String) (hr : r < times.length) :
    phase2Go (some r) ok sr ss 0 applied times
      = phase2Go none ok sr ss 0 applied (times.take (r + 1))
    ∧ (phase2Go (some r) ok sr ss 0 applied times).sleeps
      = List.replicate (r + 1) 60
    ∧ (∀ (l : List (Option (String × String))) (b i : Nat),
        (phase1Go (some r) b i l).1 = ((phase1Go none b i l).1).take (r + 1 - i)) := by
  have h0 := phase2Go_cancel r ok sr ss times 0 applied
  refine ⟨h0, ?_, phase1Go_cancel r⟩
  rw [h0, phase2Go_sleeps_none, List.length_take]
  congr 1
  omega

/-- C5 witness: concrete instance of the truncation equality. -/
theorem C5_witness :
    phase2Go (some 0) (fun _ => true) "06:30:00" "20:15:00" 0 none
      ["12:00:00", "13:00:00"]
      = phase2Go none (fun _ => true) "06:30:00" "20:15:00" 0 none
          (["12:00:00", "13:00:00"].take 1) :=
  (C5_cancel_completes_wait 0 (fun _ => true) "06:30:00" "20:15:00" none
    ["12:00:00", "13:00:00"] (by decide)).1

/-- C6 counterexample: from startup, run one tick of loop 0, then
re-select Automatic (which raises the old event but immediately rebinds
the global `stop_event` to a fresh unset one and spawns a second thread),
then one iteration of each loop: loop 0 reads the fresh global event,
stays live and makes another applier call.  The reachable state has two
spawned, live run-loops - re-selection is not a no-op, and the old loop
never observed the signal. -/
theorem C6_two_live_loops :
    (runActions [ModeAction.startAuto, ModeAction.iter 0, ModeAction.selectAuto,
      ModeAction.iter 0, ModeAction.iter 1]).threads
      = [⟨false, 2⟩, ⟨false, 1⟩]
    ∧ liveThreads (runActions [ModeAction.startAuto, ModeAction.iter 0,
        ModeAction.selectAuto, ModeAction.iter 0, ModeAction.iter 1]) = 2 := by
  decide

/-- C6 amended: selecting Automatic always raises the then-current global
signal before spawning and then spawns a fresh run-loop (one more thread)
on a fresh unset signal - never a no-op; because loops poll the current
global signal, a previous loop need not observe the raise before the new
loop starts, and a state with two concurrently-live run-loops is
reachable. -/
theorem C6_select_auto_spawns (sys : ModeSys)
    (h : sys.stopEventIdx < sys.events.length) :
    (select_theme_auto sys).threads.length = sys.threads.length + 1
    ∧ (stop_event_set sys).events.getD sys.stopEventIdx false = true
    ∧ (select_theme_auto sys).events.getD (select_theme_auto sys).stopEventIdx false
      = false
    ∧ (select_theme_auto sys).threads.getLast? = some ⟨false, 0⟩
    ∧ liveThreads (runActions [ModeAction.startAuto, ModeAction.selectAuto,
        ModeAction.iter 0, ModeAction.iter 1]) = 2 := by
  refine ⟨?_, ?_, ?_, ?_, by decide⟩
  · show ((stop_event_set sys).threads ++ [(⟨false, 0⟩ : RunLoop)]).length
      = sys.threads.length + 1
    rw [List.length_append]
    rfl
  · exact getD_set_true sys.events sys.stopEventIdx h
  · exact getD_append_len (sys.events.set sys.stopEventIdx true) false
  · exact List.getLast?_concat _

/-- C6 witness: instance at the initial process state. -/
theorem C6_witness :
    (select_theme_auto initSys).threads.length = initSys.threads.length + 1 :=
  (C6_select_auto_spawns initSys (by decide)).1

/-- C7: when the desired theme differs from the applied state, a failed
`set_windows_theme` call leaves the applied state unchanged (and one call
was made), so the next tick with the same desired theme calls the applier
again; a successful call updates the applied state; and in general the
applied state changes only when the applier reported success, and then
only to the desired theme. -/
theorem C7_failure_retries (applied : Option String) (desired : String) (ok : Bool)
    (hdiff : applied ≠ some desired) :
    tick false applied desired = (applied, 1)
    ∧ (tick ok (tick false applied desired).1 desired).2 = 1
    ∧ tick true applied desired = (some desired, 1)
    ∧ ∀ (ok3 : Bool) (ap : Option String) (d : String),
        (tick ok3 ap d).1 ≠ ap → ok3 = true ∧ (tick ok3 ap d).1 = some d := by
  have h2 : some desired ≠ applied := fun hc => hdiff hc.symm
  have ht : tick false applied desired = (applied, 1) := by
    unfold tick; rw [if_pos h2]; rfl
  refine ⟨ht, ?_, ?_, ?_⟩
  · rw [ht]
    show (tick ok applied desired).2 = 1
    unfold tick; rw [if_pos h2]
  · unfold tick; rw [if_pos h2]; rfl
  · intro ok3 ap d hch
    unfold tick at hch ⊢
    by_cases hc : some d ≠ ap
    · rw [if_pos hc] at hch ⊢
      cases ok3 with
      | false => exact absurd rfl hch
      | true => exact ⟨rfl, rfl⟩
    · rw [if_neg hc] at hch
      exact absurd rfl hch

/-- C7 witness: failed initial application of dark. -/
theorem C7_witness : tick false none "dark" = (none, 1) :=
  (C7_failure_retries none "dark" true (by decide)).1

/-- C8 counterexample: when `get_current_theme()` fails (returns `None`),
`create_tray_icon` returns at once - `start_automatic()` is never
reached, contradicting the claim that Automatic mode starts regardless of
the failure of the reading. -/
theorem C8_none_aborts : create_tray_icon none = ⟨false, none⟩ := rfl

/-- C8 amended: on a successful reading the startup enters Automatic mode
regardless of the value, which only selects the initial tray icon (dark
for 0, light otherwise); on a failed reading the startup returns early
and Automatic mode never starts. -/
theorem C8_start_only_on_success (v w : Nat) :
    (create_tray_icon (some v)).automaticStarted = true
    ∧ (create_tray_icon (some v)).automaticStarted
      = (create_tray_icon (some w)).automaticStarted
    ∧ (create_tray_icon (some 0)).iconPath = some "lib/icon_dark.png"
    ∧ (create_tray_icon (some 1)).iconPath = some "lib/icon_light.png"
    ∧ (create_tray_icon none).automaticStarted = false :=
  ⟨rfl, rfl, by decide, by decide, rfl⟩

/-- C9: on well-formed `HH:MM:SS` renderings, Python string comparison
coincides with chronological order (seconds since midnight) and with
Lean's lexicographic order on strings; consequently the chained
comparison in the polling tick classifies day and night correctly. -/
theorem C9_lex_is_chronological
    (h m s h2 m2 s2 hn mn sn : Nat)
    (hh : h < 24) (hm : m < 60) (hs : s < 60)
    (hh2 : h2 < 24) (hm2 : m2 < 60) (hs2 : s2 < 60)
    (hhn : hn < 24) (hmn : mn < 60) (hsn : sn < 60) :
    (pyLt (timeString h m s) (timeString h2 m2 s2) = true
      ↔ toSec h m s < toSec h2 m2 s2)
    ∧ (pyLt (timeString h m s) (timeString h2 m2 s2) = true
      ↔ timeString h m s < timeString h2 m2 s2)
    ∧ (desired_theme (timeString h m s) (timeString h2 m2 s2) (timeString hn mn sn)
        = "light"
      ↔ (toSec h m s < toSec hn mn sn ∧ toSec hn mn sn < toSec h2 m2 s2)) := by
  have key : ∀ a b c a2 b2 c2 : Nat, a < 24 → b < 60 → c < 60 →
      a2 < 24 → b2 < 60 → c2 < 60 →
      (pyLt (timeString a b c) (timeString a2 b2 c2) = true
        ↔ toSec a b c < toSec a2 b2 c2) := by
    intro a b c a2 b2 c2 ha hb hc ha2 hb2 hc2
    rw [pyLt_timeString a b c a2 b2 c2 (by omega) (by omega) (by omega)
      (by omega) (by omega) (by omega)]
    unfold toSec
    split_ifs with g1 g2 g3 g4 g5 g6 <;> simp <;> omega
  have k1 := key h m s hn mn sn hh hm hs hhn hmn hsn
  have k2 := key hn mn sn h2 m2 s2 hhn hmn hsn hh2 hm2 hs2
  refine ⟨key h m s h2 m2 s2 hh hm hs hh2 hm2 hs2, pyLt_iff_lt _ _, ⟨?_, ?_⟩⟩
  · intro hl
    have hcond : (pyLt (timeString h m s) (timeString hn mn sn)
        && pyLt (timeString hn mn sn) (timeString h2 m2 s2)) = true := by
      by_contra hc
      have hdk : desired_theme (timeString h m s) (timeString h2 m2 s2)
          (timeString hn mn sn) = "dark" := by
        unfold desired_theme; rw [if_neg hc]
      rw [hdk] at hl
      exact absurd hl (by decide)
    have hsplit := (Bool.and_eq_true _ _).mp hcond
    exact ⟨k1.mp hsplit.1, k2.mp hsplit.2⟩
  · rintro ⟨p1, p2⟩
    unfold desired_theme
    rw [k1.mpr p1, k2.mpr p2]
    rfl

/-- C9 witness: 06:30:00 against 20:15:00. -/
theorem C9_witness :
    pyLt (timeString 6 30 0) (timeString 20 15 0) = true
      ↔ toSec 6 30 0 < toSec 20 15 0 :=
  (C9_lex_is_chronological 6 30 0 20 15 0 12 0 0 (by decide) (by decide) (by decide)
    (by decide) (by decide) (by decide) (by decide) (by decide) (by decide)).1

/-- C10: for any input other than `"light"` and `"dark"`,
`set_windows_theme` returns `False` having performed no registry write, no
icon update and no broadcast; and whenever the `try` body raises, the
handler converts the exception into a `False` return instead of
propagating it. -/
theorem C10_invalid_and_exceptions (env : ThemeEnv) (theme : String)
    (h1 : theme ≠ "light") (h2 : theme ≠ "dark") :
    set_windows_theme env theme = (false, emptyEffects)
    ∧ ∀ (env2 : ThemeEnv) (th : String) (eff : ThemeEffects),
        set_windows_theme_body env2 th = (eff, Except.error ()) →
        set_windows_theme env2 th = (false, eff) := by
  constructor
  · have hbody : set_windows_theme_body env theme
        = if env.openKeyFails then (emptyEffects, Except.error ())
          else (emptyEffects, Except.ok false) := by
      unfold set_windows_theme_body
      rw [if_neg h1, if_neg h2]
    unfold set_windows_theme
    rw [hbody]
    by_cases ho : env.openKeyFails
    · rw [if_pos ho]
    · rw [if_neg ho]
  · intro env2 th eff heq
    unfold set_windows_theme
    rw [heq]

/-- C10 witness: the `'auto'` menu value is not a valid theme argument. -/
theorem C10_witness :
    set_windows_theme ⟨false, false, false, true, false, false⟩ "auto"
      = (false, emptyEffects) :=
  (C10_invalid_and_exceptions ⟨false, false, false, true, false, false⟩ "auto"
    (by decide) (by decide)).1
